import Mathlib

/-!
Shallow embedding of the order/item/payment consistency core of the
Order_Service repository (`order_app/models.py` and `order_app/views.py`).

The relational store is modelled as an explicit `DB` record holding the four
logical tables (orders, order items, payments, status history) together with
the two external catalog tables the SQL in `models.py` consults
(`CUSTOMERS_CUSTOMER` and `PRODUCT_APP_PRODUCT`).  Monetary values
(`DecimalField` with two decimal places) are modelled as integers (an amount
in hundredths); stock is an `Int` because the raw SQL
`SET STOCK = STOCK - %s` carries no non-negativity constraint.  Statuses and
identifiers are the strings the code uses.  Each Django operation becomes a
pure function on `DB`; an operation whose Python raises before reaching its
mutations (or whose view wraps it in `transaction.atomic`, rolling back on
exception) is modelled with `Except`, the error meaning the store is left as
it was.  Random number generators (`random.randint`, `uuid.uuid4().int`) are
modelled by passing in the stream of draws as a list.
-/

namespace OrderService

/-- Decimal digits of a natural number, most significant first, with an
explicit recursion-fuel first argument. -/
def decDigitsAux : Nat → Nat → List Nat
  | 0, _ => []
  | fuel + 1, n => if n < 10 then [n] else decDigitsAux fuel (n / 10) ++ [n % 10]

/-- Decimal digits of a natural number, most significant first, as produced by
Python `str(n)` (so `decDigits 0 = [0]`); the fuel `n + 1` always suffices. -/
def decDigits (n : Nat) : List Nat :=
  decDigitsAux (n + 1) n

/-- Embedding of Python `str(n)` for a natural number. -/
def natStr (n : Nat) : String :=
  ⟨(decDigits n).map Nat.digitChar⟩

/-- Embedding of Python `str(n)[:12]`, as used by
`Payment.generate_transaction_id` in models.py. -/
def txString (n : Nat) : String :=
  ⟨((decDigits n).map Nat.digitChar).take 12⟩

/-- A string of exactly `n` decimal-digit characters. -/
def isNDigitString (n : Nat) (s : String) : Prop :=
  s.length = n ∧ ∀ c ∈ s.data, c.isDigit = true

/-- Row of the external `PRODUCT_APP_PRODUCT` catalog table: product id and
current stock. -/
structure Product where
  productId : String
  stock : Int
  deriving Repr, DecidableEq

/-- Row of `ORDER_APP_ORDER` (the fields the consistency core reads or
writes; audit timestamps are omitted). -/
structure Order where
  orderId : String
  customerId : String
  totalAmount : Int
  status : String
  deriving Repr, DecidableEq

/-- Row of `ORDER_APP_ORDER_ITEM`. -/
structure OrderItem where
  orderItemId : Nat
  orderId : String
  productId : String
  quantity : Nat
  unitPrice : Int
  totalPrice : Int
  deriving Repr, DecidableEq

/-- Row of `ORDER_APP_PAYMENT`.  `paymentDate` is an abstract timestamp. -/
structure Payment where
  paymentId : Nat
  orderId : String
  paymentMethod : String
  transactionId : Option String
  paymentDate : Option Nat
  amountPaid : Option Int
  paymentStatus : String
  deriving Repr, DecidableEq

/-- Row of `ORDER_APP_ORDER_STATUS_HISTORY` (the timestamp is omitted; the
list order of `DB.history` is insertion order). -/
structure HistoryEntry where
  orderId : String
  status : String
  deriving Repr, DecidableEq

/-- The relational store: the four tables owned by the app plus the two
external catalog tables its raw SQL consults. -/
structure DB where
  customers : List String
  products : List Product
  orders : List Order
  items : List OrderItem
  payments : List Payment
  history : List HistoryEntry
  deriving Repr, DecidableEq

/-- Lookup of an order by primary key (`Order.objects.get(order_id=...)`). -/
def findOrder (db : DB) (oid : String) : Option Order :=
  db.orders.find? (fun o => o.orderId = oid)

/-- Lookup of an order item by primary key. -/
def findItem (db : DB) (iid : Nat) : Option OrderItem :=
  db.items.find? (fun it => it.orderItemId = iid)

/-- Lookup of the (1:1) payment of an order
(`Payment.objects.get(order__order_id=...)` / `order.payment`). -/
def findPayment (db : DB) (oid : String) : Option Payment :=
  db.payments.find? (fun p => p.orderId = oid)

/-- The catalog stock query of `OrderItem.save`
(`SELECT STOCK FROM ... PRODUCT_APP_PRODUCT WHERE PRODUCT_ID = %s`):
`none` when the product row does not exist. -/
def stockOf (db : DB) (pid : String) : Option Int :=
  (db.products.find? (fun pr => pr.productId = pid)).map Product.stock

/-- The customer existence query of `Order.save`
(`SELECT COUNT(*) FROM ... CUSTOMERS_CUSTOMER WHERE CUSTOMER_ID = %s`). -/
def customerExists (db : DB) (cid : String) : Prop :=
  cid ∈ db.customers

instance (db : DB) (cid : String) : Decidable (customerExists db cid) :=
  inferInstanceAs (Decidable (cid ∈ db.customers))

/-- UPDATE of an order row by primary key: every row whose `orderId` matches
is replaced by `o`. -/
def replaceOrder (db : DB) (o : Order) : DB :=
  { db with orders := db.orders.map (fun q => if q.orderId = o.orderId then o else q) }

/-- UPDATE of a payment row by primary key. -/
def replacePayment (db : DB) (p : Payment) : DB :=
  { db with payments := db.payments.map (fun q => if q.paymentId = p.paymentId then p else q) }

/-- The stock decrement of `OrderItem.save`
(`UPDATE ... SET STOCK = STOCK - %s WHERE PRODUCT_ID = %s`). -/
def decStock (db : DB) (pid : String) (qty : Nat) : DB :=
  let upd : Product → Product := fun pr =>
    if pr.productId = pid then { pr with stock := pr.stock - (qty : Int) } else pr
  { db with products := db.products.map upd }

/-- `OrderStatusHistory.objects.create(order=order, status=...)`: a pure
append to the history table. -/
def appendHistory (db : DB) (oid st : String) : DB :=
  { db with history := db.history ++ [⟨oid, st⟩] }

/-- Sum over `total_price` of the live items of an order, as computed by
`Order.update_total_amount` (`aggregate(total=Sum("total_price"))["total"] or
0.00`; an empty sum is 0). -/
def itemsTotal (db : DB) (oid : String) : Int :=
  ((db.items.filter (fun it => it.orderId = oid)).map OrderItem.totalPrice).sum

/-- `generate_order_id` of models.py.  The stream of `random.randint(1000000,
9999999)` draws is passed in as `draws`; the loop takes the first draw whose
string form collides with no existing `order_id`, and the model returns
`none` when the finite stream is exhausted (the Python loop would keep
sampling). -/
def generate_order_id (db : DB) : List Nat → Option String
  | [] => none
  | d :: rest =>
      let s := natStr d
      if db.orders.any (fun o => o.orderId = s) then generate_order_id db rest
      else some s

/-- `Payment.generate_transaction_id` of models.py.  The stream of
`uuid.uuid4().int` draws is passed in as `draws`; each candidate is
`str(draw)[:12]`, retried until it collides with no existing
`transaction_id`. -/
def generate_transaction_id (db : DB) : List Nat → Option String
  | [] => none
  | d :: rest =>
      let t := txString d
      if db.payments.any (fun p => p.transactionId = some t) then
        generate_transaction_id db rest
      else some t

/-- The field mutations of `Payment.save` (models.py lines 151-162) on the
in-memory instance: on `success`, assign a transaction id only when none is
set, stamp the payment date, and snapshot `amount_paid` from the parent
order's current `total_amount`; otherwise clear all three fields.  `txGen`
is the candidate produced by `generate_transaction_id` (consulted only in
the success-with-no-id branch). -/
def paymentAfterSave (p : Payment) (orderTotal : Int) (tNow : Nat)
    (txGen : Option String) : Payment :=
  if p.paymentStatus = "success" then
    { p with
      transactionId := match p.transactionId with
        | some t => some t
        | none => txGen
      paymentDate := some tNow
      amountPaid := some orderTotal }
  else
    { p with transactionId := none, paymentDate := none, amountPaid := none }

/-- `Payment.save` as a store operation: look up the parent order (FK
`self.order`), apply the field mutations of `paymentAfterSave`, and persist
the row.  Returns `none` when the FK is dangling or when the success branch
needs a transaction id and the draw stream `draws` is exhausted. -/
def dbSavePayment (db : DB) (p : Payment) (draws : List Nat) (tNow : Nat) :
    Option DB :=
  match findOrder db p.orderId with
  | none => none
  | some o =>
      if p.paymentStatus = "success" ∧ p.transactionId = none then
        match generate_transaction_id db draws with
        | none => none
        | some t =>
            some (replacePayment db (paymentAfterSave p o.totalAmount tNow (some t)))
      else
        some (replacePayment db (paymentAfterSave p o.totalAmount tNow none))

/-- Errors of the item-creation path (`OrderItemViewSet.create` calling
`OrderItem.save`); the view wraps the whole call in `transaction.atomic`, so
an error leaves the store untouched. -/
inductive AddItemError where
  | orderNotFound
  | invalidProduct
  | insufficientStock
  | invalidCustomer
  deriving Repr, DecidableEq

/-- The item row built by `OrderItem.save`, with
`total_price = unit_price * quantity`. -/
def newOrderItem (oid pid : String) (qty : Nat) (unitPrice : Int)
    (iid : Nat) : OrderItem :=
  { orderItemId := iid, orderId := oid, productId := pid, quantity := qty,
    unitPrice := unitPrice, totalPrice := unitPrice * (qty : Int) }

/-- The store after the success branch of `OrderItem.save`: insert the item
row, recompute and persist the order's `total_amount`, then decrement the
catalog stock. -/
def addItemSuccess (db : DB) (o : Order) (oid pid : String) (qty : Nat)
    (unitPrice : Int) (iid : Nat) : DB :=
  let db1 : DB := { db with items := db.items ++ [newOrderItem oid pid qty unitPrice iid] }
  decStock (replaceOrder db1 { o with totalAmount := itemsTotal db1 oid }) pid qty

/-- `OrderItem.save` as invoked by `OrderItemViewSet.create` (views.py lines
146-161) inside `transaction.atomic`: check the product's catalog stock,
fail on a missing product or on `available_stock < quantity`; otherwise set
`total_price = unit_price * quantity`, insert the row, run
`Order.update_total_amount` (which re-saves the order, re-running the
customer check of `Order.save`), and finally decrement the catalog stock. -/
def addItem (db : DB) (oid pid : String) (qty : Nat) (unitPrice : Int)
    (iid : Nat) : Except AddItemError DB :=
  match findOrder db oid with
  | none => .error .orderNotFound
  | some o =>
      match stockOf db pid with
      | none => .error .invalidProduct
      | some available_stock =>
          if available_stock < (qty : Int) then .error .insufficientStock
          else if customerExists db o.customerId then
            .ok (addItemSuccess db o oid pid qty unitPrice iid)
          else .error .invalidCustomer

/-- Errors of the item-deletion path (`OrderItemViewSet.destroy`); the view
wraps delete-plus-recompute in `transaction.atomic`. -/
inductive RemoveItemError where
  | itemNotFound
  | orderMissing
  | invalidCustomer
  deriving Repr, DecidableEq

/-- The store after the success branch of `OrderItemViewSet.destroy`: delete
the item row by primary key and recompute the parent order's
`total_amount`. -/
def removeItemSuccess (db : DB) (o : Order) (iid : Nat) (oid : String) : DB :=
  let db1 : DB := { db with items := db.items.filter (fun j => j.orderItemId ≠ iid) }
  replaceOrder db1 { o with totalAmount := itemsTotal db1 oid }

/-- `OrderItemViewSet.destroy` (views.py lines 163-172) inside
`transaction.atomic`: delete the item row, then
`order.update_total_amount()` (which re-saves the order, re-running the
customer check).  Catalog stock is not touched. -/
def removeItem (db : DB) (iid : Nat) : Except RemoveItemError DB :=
  match findItem db iid with
  | none => .error .itemNotFound
  | some it =>
      match findOrder db it.orderId with
      | none => .error .orderMissing
      | some o =>
          if customerExists db o.customerId then
            .ok (removeItemSuccess db o iid it.orderId)
          else .error .invalidCustomer

/-- Errors of `OrderViewSet.update_status`.  `relatedObjectDoesNotExist`
models the `RelatedObjectDoesNotExist` exception Django raises when
`order.payment` is accessed on an order with no payment row: it is a raw ORM
exception, not one of the spec's domain errors. -/
inductive UpdateStatusError where
  | orderNotFound
  | invalidStatus
  | deliveryRequiresPayment
  | relatedObjectDoesNotExist
  | invalidCustomer
  deriving Repr, DecidableEq

/-- The three values of `Order.STATUS_CHOICES`. -/
def statusChoices : List String := ["pending", "shipped", "delivered"]

/-- `OrderViewSet.update_status` (views.py lines 89-109): validate the
status value, for `delivered` require the payment's status to be `success`
(accessing `order.payment` raises if no payment exists), then set the
status, save the order (re-running the customer check of `Order.save`), and
append one history row.  All checks happen before any mutation, so an error
leaves the store untouched. -/
def update_status (db : DB) (oid newStatus : String) :
    Except UpdateStatusError DB :=
  match findOrder db oid with
  | none => .error .orderNotFound
  | some o =>
      if newStatus ∉ statusChoices then .error .invalidStatus
      else if newStatus = "delivered" then
        match findPayment db oid with
        | none => .error .relatedObjectDoesNotExist
        | some p =>
            if p.paymentStatus ≠ "success" then .error .deliveryRequiresPayment
            else if customerExists db o.customerId then
              .ok (appendHistory (replaceOrder db { o with status := newStatus }) oid newStatus)
            else .error .invalidCustomer
      else if customerExists db o.customerId then
        .ok (appendHistory (replaceOrder db { o with status := newStatus }) oid newStatus)
      else .error .invalidCustomer

/-- Errors of `PaymentViewSet.confirm_payment`. -/
inductive ConfirmError where
  | paymentNotFound
  | alreadyConfirmed
  deriving Repr, DecidableEq

/-- Outcome of `PaymentViewSet.confirm_payment`.  The view has no
  `transaction.atomic` block: after `payment.save()` has committed, a failure
in `order.save()` (a missing customer) or an exhausted transaction-id draw
stream leaves the store partially mutated, which `partial` records. -/
inductive ConfirmOutcome where
  | ok (db : DB)
  | failed (e : ConfirmError)
  | partialFailure (db : DB)
  deriving Repr, DecidableEq

/-- `PaymentViewSet.confirm_payment` (views.py lines 217-233): 404 when the
order has no payment; reject with "already marked as successful" when the
payment status is `success`; otherwise set the status to `success`, save the
payment (assigning a transaction id and snapshotting `amount_paid` per
`Payment.save`), then set the parent order's status to `shipped`, save it,
and append one `shipped` history row. -/
def confirm_payment (db : DB) (oid : String) (draws : List Nat) (tNow : Nat) :
    ConfirmOutcome :=
  match findPayment db oid with
  | none => .failed .paymentNotFound
  | some p =>
      if p.paymentStatus = "success" then .failed .alreadyConfirmed
      else
        match dbSavePayment db { p with paymentStatus := "success" } draws tNow with
        | none => .partialFailure db
        | some db1 =>
            match findOrder db1 oid with
            | none => .partialFailure db1
            | some o =>
                if customerExists db1 o.customerId then
                  .ok (appendHistory (replaceOrder db1 { o with status := "shipped" }) oid "shipped")
                else .partialFailure db1

/-! Basic lemmas about decimal digit strings. -/

theorem decDigits_ne_nil (n : Nat) : decDigits n ≠ [] := by
  unfold decDigits
  simp only [decDigitsAux]
  split
  · simp
  · simp

theorem decDigitsAux_all_lt_ten (fuel : Nat) :
    ∀ n, ∀ d ∈ decDigitsAux fuel n, d < 10 := by
  induction fuel with
  | zero => intro n d hd; simp [decDigitsAux] at hd
  | succ fuel ih =>
    intro n d hd
    simp only [decDigitsAux] at hd
    split at hd
    · next hlt =>
      simp only [List.mem_singleton] at hd
      omega
    · next hlt =>
      rcases List.mem_append.mp hd with h1 | h2
      · exact ih (n / 10) d h1
      · simp only [List.mem_singleton] at h2
        subst h2
        exact Nat.mod_lt _ (by omega)

theorem decDigits_all_lt_ten (n : Nat) : ∀ d ∈ decDigits n, d < 10 :=
  decDigitsAux_all_lt_ten (n + 1) n

theorem decDigitsAux_length_lower (k : Nat) :
    ∀ fuel n, 10 ^ k ≤ n → k + 1 ≤ fuel → k + 1 ≤ (decDigitsAux fuel n).length := by
  induction k with
  | zero =>
    intro fuel n hn hf
    cases fuel with
    | zero => omega
    | succ fuel =>
      simp only [decDigitsAux]
      split
      · simp
      · simp
  | succ k ih =>
    intro fuel n hn hf
    cases fuel with
    | zero => omega
    | succ fuel =>
      have h10 : 10 ≤ n := by
        have hpow : 10 ^ 1 ≤ 10 ^ (k + 1) := Nat.pow_le_pow_right (by omega) (by omega)
        have := le_trans hpow hn
        simpa using this
      simp only [decDigitsAux]
      rw [if_neg (by omega)]
      have hdiv : 10 ^ k ≤ n / 10 := by
        rw [Nat.le_div_iff_mul_le (by omega)]
        calc 10 ^ k * 10 = 10 ^ (k + 1) := by ring
        _ ≤ n := hn
      have := ih fuel (n / 10) hdiv (by omega)
      simp only [List.length_append, List.length_cons, List.length_nil]
      omega

theorem decDigitsAux_length_upper (fuel : Nat) :
    ∀ n k, n < 10 ^ (k + 1) → (decDigitsAux fuel n).length ≤ k + 1 := by
  induction fuel with
  | zero => intro n k _; simp [decDigitsAux]
  | succ fuel ih =>
    intro n k hn
    simp only [decDigitsAux]
    split
    · simp
    · next hge =>
      cases k with
      | zero =>
        have : n < 10 := by simpa using hn
        omega
      | succ k =>
        have hdiv : n / 10 < 10 ^ (k + 1) := by
          rw [Nat.div_lt_iff_lt_mul (by omega)]
          calc n < 10 ^ (k + 2) := hn
          _ = 10 ^ (k + 1) * 10 := by ring
        have := ih (n / 10) k hdiv
        simp only [List.length_append, List.length_cons, List.length_nil]
        omega

theorem decDigits_length_lower (k : Nat) (n : Nat) (h : 10 ^ k ≤ n) :
    k + 1 ≤ (decDigits n).length := by
  apply decDigitsAux_length_lower k (n + 1) n h
  have hk : k < 10 ^ k := Nat.lt_pow_self (by omega) k
  omega

theorem decDigits_length_upper (k : Nat) (n : Nat) (h : n < 10 ^ (k + 1)) :
    (decDigits n).length ≤ k + 1 :=
  decDigitsAux_length_upper (n + 1) n k h

theorem digitChar_isDigit (d : Nat) (h : d < 10) :
    (Nat.digitChar d).isDigit = true := by
  interval_cases d <;> decide

theorem natStr_isNDigit (k : Nat) (n : Nat) (hlo : 10 ^ k ≤ n)
    (hhi : n < 10 ^ (k + 1)) : isNDigitString (k + 1) (natStr n) := by
  constructor
  · show ((decDigits n).map Nat.digitChar).length = k + 1
    rw [List.length_map]
    exact le_antisymm (decDigits_length_upper k n hhi) (decDigits_length_lower k n hlo)
  · intro c hc
    have hc2 : c ∈ (decDigits n).map Nat.digitChar := hc
    rcases List.mem_map.mp hc2 with ⟨d, hd, rfl⟩
    exact digitChar_isDigit d (decDigits_all_lt_ten n d hd)

theorem txString_isTwelveDigit (n : Nat) (h : 10 ^ 11 ≤ n) :
    isNDigitString 12 (txString n) := by
  constructor
  · show (((decDigits n).map Nat.digitChar).take 12).length = 12
    rw [List.length_take, List.length_map]
    have := decDigits_length_lower 11 n h
    omega
  · intro c hc
    rcases List.mem_map.mp (List.mem_of_mem_take hc) with ⟨d, hd, rfl⟩
    exact digitChar_isDigit d (decDigits_all_lt_ten n d hd)

/-! Lemmas about row lookup and row replacement. -/

theorem findOrder_mem (db : DB) (oid : String) (o : Order)
    (h : findOrder db oid = some o) : o ∈ db.orders ∧ o.orderId = oid := by
  refine ⟨List.mem_of_find?_eq_some h, ?_⟩
  have := List.find?_some h
  simpa using this

theorem findItem_mem (db : DB) (iid : Nat) (it : OrderItem)
    (h : findItem db iid = some it) : it ∈ db.items ∧ it.orderItemId = iid := by
  refine ⟨List.mem_of_find?_eq_some h, ?_⟩
  have := List.find?_some h
  simpa using this

theorem findPayment_mem (db : DB) (oid : String) (p : Payment)
    (h : findPayment db oid = some p) : p ∈ db.payments ∧ p.orderId = oid := by
  refine ⟨List.mem_of_find?_eq_some h, ?_⟩
  have := List.find?_some h
  simpa using this

theorem find?_orders_replace (l : List Order) (oid : String) (o o' : Order)
    (h : l.find? (fun q => q.orderId = oid) = some o) (h' : o'.orderId = oid) :
    (l.map (fun q => if q.orderId = o'.orderId then o' else q)).find?
      (fun q => q.orderId = oid) = some o' := by
  induction l with
  | nil => simp at h
  | cons a l ih =>
    by_cases ha : a.orderId = oid
    · simp only [List.map_cons]
      rw [if_pos (by rw [h', ha])]
      rw [List.find?_cons_of_pos _ (by simpa using h')]
    · rw [List.find?_cons_of_neg _ (by simpa using ha)] at h
      simp only [List.map_cons]
      rw [if_neg (by rw [h']; exact ha)]
      rw [List.find?_cons_of_neg _ (by simpa using ha)]
      exact ih h

/-- After `replaceOrder db o'`, looking up the replaced key finds `o'`. -/
theorem findOrder_replaceOrder (db : DB) (oid : String) (o o' : Order)
    (h : findOrder db oid = some o) (h' : o'.orderId = oid) :
    findOrder (replaceOrder db o') oid = some o' :=
  find?_orders_replace db.orders oid o o' h h'

theorem find?_payments_replace (l : List Payment) (oid : String) (p p2 : Payment)
    (h : l.find? (fun q => q.orderId = oid) = some p)
    (hid : p2.paymentId = p.paymentId) (hoid : p2.orderId = oid) :
    (l.map (fun q => if q.paymentId = p2.paymentId then p2 else q)).find?
      (fun q => q.orderId = oid) = some p2 := by
  induction l with
  | nil => simp at h
  | cons a l ih =>
    by_cases ha : a.orderId = oid
    · rw [List.find?_cons_of_pos _ (by simpa using ha)] at h
      have hap : a = p := by simpa using h
      simp only [List.map_cons]
      rw [if_pos (by rw [hap, hid])]
      rw [List.find?_cons_of_pos _ (by simpa using hoid)]
    · rw [List.find?_cons_of_neg _ (by simpa using ha)] at h
      simp only [List.map_cons]
      by_cases hpm : a.paymentId = p2.paymentId
      · rw [if_pos hpm]
        rw [List.find?_cons_of_pos _ (by simpa using hoid)]
      · rw [if_neg hpm]
        rw [List.find?_cons_of_neg _ (by simpa using ha)]
        exact ih h

/-- After `replacePayment db p2`, where `p2` keeps the primary key of the
payment `findPayment` returns for `oid` and still references `oid`, the
lookup finds `p2`. -/
theorem findPayment_replacePayment (db : DB) (oid : String) (p p2 : Payment)
    (h : findPayment db oid = some p) (hid : p2.paymentId = p.paymentId)
    (hoid : p2.orderId = oid) :
    findPayment (replacePayment db p2) oid = some p2 :=
  find?_payments_replace db.payments oid p p2 h hid hoid

theorem find?_products_dec (l : List Product) (pid : String) (pr : Product)
    (qty : Nat) (h : l.find? (fun q => q.productId = pid) = some pr) :
    (l.map (fun q => if q.productId = pid then { q with stock := q.stock - (qty : Int) } else q)).find?
      (fun q => q.productId = pid) = some { pr with stock := pr.stock - (qty : Int) } := by
  induction l with
  | nil => simp at h
  | cons a l ih =>
    by_cases ha : a.productId = pid
    · rw [List.find?_cons_of_pos _ (by simpa using ha)] at h
      have hap : a = pr := by simpa using h
      simp only [List.map_cons]
      rw [if_pos ha]
      rw [List.find?_cons_of_pos _ (by simpa using ha)]
      rw [hap]
    · rw [List.find?_cons_of_neg _ (by simpa using ha)] at h
      simp only [List.map_cons]
      rw [if_neg ha]
      rw [List.find?_cons_of_neg _ (by simpa using ha)]
      exact ih h

/-- `decStock` subtracts exactly `qty` from the decremented product's
stock. -/
theorem stockOf_decStock (db : DB) (pid : String) (qty : Nat) (st : Int)
    (h : stockOf db pid = some st) :
    stockOf (decStock db pid qty) pid = some (st - (qty : Int)) := by
  unfold stockOf at h ⊢
  cases hf : db.products.find? (fun q => q.productId = pid) with
  | none => rw [hf] at h; simp at h
  | some pr =>
    rw [hf] at h
    have hst : pr.stock = st := by simpa using h
    show ((decStock db pid qty).products.find? _).map _ = _
    have : (decStock db pid qty).products =
        db.products.map (fun q => if q.productId = pid then { q with stock := q.stock - (qty : Int) } else q) :=
      rfl
    rw [this, find?_products_dec db.products pid pr qty hf]
    simp [hst]

/-! Lemmas about the retry-until-fresh identifier generators. -/

theorem generate_order_id_spec (db : DB) (draws : List Nat) (s : String)
    (h : generate_order_id db draws = some s) :
    (∃ d ∈ draws, s = natStr d) ∧ ∀ o ∈ db.orders, o.orderId ≠ s := by
  induction draws with
  | nil => simp [generate_order_id] at h
  | cons d rest ih =>
    rw [generate_order_id] at h
    split at h
    · rcases ih h with ⟨⟨d', hd', hs⟩, hfresh⟩
      exact ⟨⟨d', List.mem_cons_of_mem _ hd', hs⟩, hfresh⟩
    · next hcol =>
      have hs : s = natStr d := by simpa using h.symm
      refine ⟨⟨d, List.mem_cons_self _ _, hs⟩, ?_⟩
      intro o ho
      have := (List.any_eq_true.not.mp hcol)
      push_neg at this
      have h2 := this o ho
      rw [hs]
      simpa using h2

theorem generate_transaction_id_spec (db : DB) (draws : List Nat) (t : String)
    (h : generate_transaction_id db draws = some t) :
    (∃ d ∈ draws, t = txString d) ∧ ∀ p ∈ db.payments, p.transactionId ≠ some t := by
  induction draws with
  | nil => simp [generate_transaction_id] at h
  | cons d rest ih =>
    rw [generate_transaction_id] at h
    split at h
    · rcases ih h with ⟨⟨d', hd', hs⟩, hfresh⟩
      exact ⟨⟨d', List.mem_cons_of_mem _ hd', hs⟩, hfresh⟩
    · next hcol =>
      have hs : t = txString d := by simpa using h.symm
      refine ⟨⟨d, List.mem_cons_self _ _, hs⟩, ?_⟩
      intro p hp
      have := (List.any_eq_true.not.mp hcol)
      push_neg at this
      have h2 := this p hp
      rw [hs]
      simpa using h2

/-! Structure of successful `addItem` and `removeItem` runs. -/

theorem addItem_ok_elim (db : DB) (oid pid : String) (qty : Nat) (up : Int)
    (iid : Nat) (db' : DB) (h : addItem db oid pid qty up iid = .ok db') :
    ∃ o available_stock, findOrder db oid = some o ∧
      stockOf db pid = some available_stock ∧
      ¬ available_stock < (qty : Int) ∧ customerExists db o.customerId ∧
      db' = addItemSuccess db o oid pid qty up iid := by
  unfold addItem at h
  split at h
  · simp at h
  · next o ho =>
    split at h
    · simp at h
    · next available_stock hs =>
      split at h
      · simp at h
      · next hge =>
        split at h
        · next hcust =>
          exact ⟨o, available_stock, ho, hs, hge, hcust, by simpa using h.symm⟩
        · simp at h

theorem removeItem_ok_elim (db : DB) (iid : Nat) (db' : DB)
    (h : removeItem db iid = .ok db') :
    ∃ it o, findItem db iid = some it ∧ findOrder db it.orderId = some o ∧
      customerExists db o.customerId ∧
      db' = removeItemSuccess db o iid it.orderId := by
  unfold removeItem at h
  split at h
  · simp at h
  · next it hit =>
    split at h
    · simp at h
    · next o ho =>
      split at h
      · next hcust =>
        exact ⟨it, o, hit, ho, hcust, by simpa using h.symm⟩
      · simp at h

theorem addItemSuccess_payments (db : DB) (o : Order) (oid pid : String)
    (qty : Nat) (up : Int) (iid : Nat) :
    (addItemSuccess db o oid pid qty up iid).payments = db.payments := rfl

theorem addItemSuccess_history (db : DB) (o : Order) (oid pid : String)
    (qty : Nat) (up : Int) (iid : Nat) :
    (addItemSuccess db o oid pid qty up iid).history = db.history := rfl

theorem addItemSuccess_items (db : DB) (o : Order) (oid pid : String)
    (qty : Nat) (up : Int) (iid : Nat) :
    (addItemSuccess db o oid pid qty up iid).items =
      db.items ++ [newOrderItem oid pid qty up iid] := rfl

theorem removeItemSuccess_payments (db : DB) (o : Order) (iid : Nat)
    (oid : String) : (removeItemSuccess db o iid oid).payments = db.payments := rfl

theorem removeItemSuccess_products (db : DB) (o : Order) (iid : Nat)
    (oid : String) : (removeItemSuccess db o iid oid).products = db.products := rfl

theorem removeItemSuccess_items (db : DB) (o : Order) (iid : Nat)
    (oid : String) : (removeItemSuccess db o iid oid).items =
      db.items.filter (fun j => j.orderItemId ≠ iid) := rfl

/-! Lemmas about `itemsTotal`. -/

theorem itemsTotal_set_items (db : DB) (l : List OrderItem) (oid : String) :
    itemsTotal { db with items := l } oid =
      ((l.filter (fun it => it.orderId = oid)).map OrderItem.totalPrice).sum := rfl

theorem itemsTotal_append_other (db : DB) (it : OrderItem) (x : String)
    (h : it.orderId ≠ x) :
    itemsTotal { db with items := db.items ++ [it] } x = itemsTotal db x := by
  unfold itemsTotal
  simp [List.filter_append, h]

/-- Members of a list of items with pairwise-distinct primary keys are
determined by their key. -/
theorem item_mem_eq_of_key (l : List OrderItem)
    (hp : l.Pairwise (fun a b => a.orderItemId ≠ b.orderItemId))
    (a b : OrderItem) (ha : a ∈ l) (hb : b ∈ l)
    (hk : a.orderItemId = b.orderItemId) : a = b := by
  induction l with
  | nil => simp at ha
  | cons x xs ih =>
    rcases List.pairwise_cons.mp hp with ⟨hx, hxs⟩
    rcases List.mem_cons.mp ha with rfl | ha2
    · rcases List.mem_cons.mp hb with rfl | hb2
      · rfl
      · exact absurd hk (hx b hb2)
    · rcases List.mem_cons.mp hb with rfl | hb2
      · exact absurd hk.symm (hx a ha2)
      · exact ih hxs ha2 hb2

/-- Deleting the row with key `iid` does not change another order's filtered
item list, when primary keys are unique and the deleted row belongs to order
`it.orderId`. -/
theorem itemsTotal_erase_other (db : DB) (iid : Nat) (it : OrderItem)
    (hp : db.items.Pairwise (fun a b => a.orderItemId ≠ b.orderItemId))
    (hmem : it ∈ db.items) (hkey : it.orderItemId = iid) (x : String)
    (h : it.orderId ≠ x) :
    itemsTotal { db with items := db.items.filter (fun j => j.orderItemId ≠ iid) } x =
      itemsTotal db x := by
  have hfilter : (db.items.filter (fun j => j.orderItemId ≠ iid)).filter
        (fun j => j.orderId = x) = db.items.filter (fun j => j.orderId = x) := by
    rw [List.filter_filter]
    apply List.filter_congr
    intro j hj
    by_cases hx : j.orderId = x
    · have hkne : j.orderItemId ≠ iid := by
        intro hke
        have hji : j = it :=
          item_mem_eq_of_key db.items hp j it hj hmem (by rw [hke, hkey])
        rw [hji] at hx
        exact h hx
      simp [hx, hkne]
    · simp [hx]
  show ((((db.items.filter (fun j => j.orderItemId ≠ iid)).filter
      (fun j => j.orderId = x)).map OrderItem.totalPrice).sum : Int) =
    (((db.items.filter (fun j => j.orderId = x)).map OrderItem.totalPrice).sum : Int)
  rw [hfilter]

theorem itemsTotal_eq_of_items (db1 db2 : DB) (x : String)
    (h : db1.items = db2.items) : itemsTotal db1 x = itemsTotal db2 x := by
  unfold itemsTotal
  rw [h]

/-- The documented invariant of the Order Ledger: every order's
`total_amount` equals the sum of `total_price` over its live items. -/
def totalsInvariant (db : DB) : Prop :=
  ∀ o ∈ db.orders, o.totalAmount = itemsTotal db o.orderId

instance (db : DB) : Decidable (totalsInvariant db) :=
  inferInstanceAs (Decidable (∀ o ∈ db.orders, o.totalAmount = itemsTotal db o.orderId))

theorem totalsInvariant_addItemSuccess (db : DB) (o : Order) (oid pid : String)
    (qty : Nat) (up : Int) (iid : Nat) (ho : findOrder db oid = some o)
    (hinv : totalsInvariant db) :
    totalsInvariant (addItemSuccess db o oid pid qty up iid) := by
  rcases findOrder_mem db oid o ho with ⟨_, hoid⟩
  intro q hq
  have hitems : (addItemSuccess db o oid pid qty up iid).items =
      db.items ++ [newOrderItem oid pid qty up iid] := rfl
  have hq2 : q ∈ db.orders.map (fun r =>
      if r.orderId = o.orderId then
        { o with totalAmount :=
            itemsTotal { db with items := db.items ++ [newOrderItem oid pid qty up iid] } oid }
      else r) := hq
  rcases List.mem_map.mp hq2 with ⟨r, hr, rfl⟩
  rw [itemsTotal_eq_of_items _ { db with items := db.items ++ [newOrderItem oid pid qty up iid] }
      _ hitems]
  by_cases hroid : r.orderId = o.orderId
  · rw [if_pos hroid]
    show itemsTotal { db with items := db.items ++ [newOrderItem oid pid qty up iid] } oid =
      itemsTotal { db with items := db.items ++ [newOrderItem oid pid qty up iid] } o.orderId
    rw [hoid]
  · rw [if_neg hroid]
    rw [itemsTotal_append_other db (newOrderItem oid pid qty up iid) r.orderId
      (by show oid ≠ r.orderId; rw [← hoid]; exact fun hc => hroid hc.symm)]
    exact hinv r hr

theorem totalsInvariant_removeItemSuccess (db : DB) (o : Order) (iid : Nat)
    (it : OrderItem) (hit : findItem db iid = some it)
    (ho : findOrder db it.orderId = some o)
    (hp : db.items.Pairwise (fun a b => a.orderItemId ≠ b.orderItemId))
    (hinv : totalsInvariant db) :
    totalsInvariant (removeItemSuccess db o iid it.orderId) := by
  rcases findOrder_mem db it.orderId o ho with ⟨_, hoid⟩
  rcases findItem_mem db iid it hit with ⟨hitmem, hitkey⟩
  intro q hq
  have hitems : (removeItemSuccess db o iid it.orderId).items =
      db.items.filter (fun j => j.orderItemId ≠ iid) := rfl
  have hq2 : q ∈ db.orders.map (fun r =>
      if r.orderId = o.orderId then
        { o with totalAmount :=
            itemsTotal { db with items := db.items.filter (fun j => j.orderItemId ≠ iid) } it.orderId }
      else r) := hq
  rcases List.mem_map.mp hq2 with ⟨r, hr, rfl⟩
  rw [itemsTotal_eq_of_items _
      { db with items := db.items.filter (fun j => j.orderItemId ≠ iid) } _ hitems]
  by_cases hroid : r.orderId = o.orderId
  · rw [if_pos hroid]
    show itemsTotal { db with items := db.items.filter (fun j => j.orderItemId ≠ iid) } it.orderId =
      itemsTotal { db with items := db.items.filter (fun j => j.orderItemId ≠ iid) } o.orderId
    rw [hoid]
  · rw [if_neg hroid]
    rw [itemsTotal_erase_other db iid it hp hitmem hitkey r.orderId
      (by rw [← hoid]; exact fun hc => hroid hc.symm)]
    exact hinv r hr

/-! Behavior of `update_status`. -/

theorem update_status_delivered_no_success (db : DB) (oid : String) (o : Order)
    (p : Payment) (ho : findOrder db oid = some o)
    (hp : findPayment db oid = some p) (hns : p.paymentStatus ≠ "success") :
    update_status db oid "delivered" = .error .deliveryRequiresPayment := by
  unfold update_status
  rw [ho]
  dsimp only
  rw [if_neg (by decide), if_pos (by decide : ("delivered" : String) = "delivered"), hp]
  dsimp only
  rw [if_pos hns]

theorem update_status_delivered_success (db : DB) (oid : String) (o : Order)
    (p : Payment) (ho : findOrder db oid = some o)
    (hp : findPayment db oid = some p) (hs : p.paymentStatus = "success")
    (hcust : customerExists db o.customerId) :
    update_status db oid "delivered" =
      .ok (appendHistory (replaceOrder db { o with status := "delivered" })
        oid "delivered") := by
  unfold update_status
  rw [ho]
  dsimp only
  rw [if_neg (by decide), if_pos (by decide : ("delivered" : String) = "delivered"), hp]
  dsimp only
  rw [if_neg (by simp [hs]), if_pos hcust]

theorem update_status_delivered_no_payment (db : DB) (oid : String) (o : Order)
    (ho : findOrder db oid = some o) (hp : findPayment db oid = none) :
    update_status db oid "delivered" = .error .relatedObjectDoesNotExist := by
  unfold update_status
  rw [ho]
  dsimp only
  rw [if_neg (by decide), if_pos (by decide : ("delivered" : String) = "delivered"), hp]

/-! Behavior of `Payment.save` as a store operation. -/

theorem dbSavePayment_success_eq (db : DB) (p : Payment) (draws : List Nat)
    (tNow : Nat) (o : Order) (t : String)
    (ho : findOrder db p.orderId = some o) (hs : p.paymentStatus = "success")
    (htx : p.transactionId = none)
    (hgen : generate_transaction_id db draws = some t) :
    dbSavePayment db p draws tNow = some (replacePayment db
      { p with transactionId := some t, paymentDate := some tNow,
               amountPaid := some o.totalAmount }) := by
  unfold dbSavePayment
  rw [ho]
  dsimp only
  rw [if_pos ⟨hs, htx⟩, hgen]
  dsimp only
  unfold paymentAfterSave
  rw [if_pos hs, htx]

theorem dbSavePayment_nonsuccess_eq (db : DB) (p : Payment) (draws : List Nat)
    (tNow : Nat) (o : Order) (ho : findOrder db p.orderId = some o)
    (hns : p.paymentStatus ≠ "success") :
    dbSavePayment db p draws tNow = some (replacePayment db
      { p with transactionId := none, paymentDate := none,
               amountPaid := none }) := by
  unfold dbSavePayment
  rw [ho]
  dsimp only
  rw [if_neg (fun hc => hns hc.1)]
  unfold paymentAfterSave
  rw [if_neg hns]

theorem dbSavePayment_success_elim (db : DB) (p : Payment) (draws : List Nat)
    (tNow : Nat) (db1 : DB) (hs : p.paymentStatus = "success")
    (h : dbSavePayment db p draws tNow = some db1) :
    ∃ o tx, findOrder db p.orderId = some o ∧
      db1 = replacePayment db
        { p with transactionId := tx, paymentDate := some tNow,
                 amountPaid := some o.totalAmount } := by
  unfold dbSavePayment at h
  split at h
  · simp at h
  · next o ho =>
    split at h
    · next hcond =>
      split at h
      · simp at h
      · next t hgen =>
        refine ⟨o, some t, ho, ?_⟩
        have h2 := h
        unfold paymentAfterSave at h2
        rw [if_pos hs, hcond.2] at h2
        simpa using h2.symm
    · next hcond =>
      have htx : p.transactionId ≠ none := by
        intro hc
        exact hcond ⟨hs, hc⟩
      rcases ht : p.transactionId with _ | t0
      · exact absurd ht htx
      · refine ⟨o, some t0, ho, ?_⟩
        have h2 := h
        unfold paymentAfterSave at h2
        rw [if_pos hs, ht] at h2
        simpa using h2.symm

theorem mem_replacePayment_eq (db : DB) (p2 q : Payment)
    (hq : q ∈ (replacePayment db p2).payments)
    (hid : q.paymentId = p2.paymentId) : q = p2 := by
  rcases List.mem_map.mp hq with ⟨r, _, rfl⟩
  by_cases hc : r.paymentId = p2.paymentId
  · rw [if_pos hc]
  · rw [if_neg hc] at hid ⊢
    exact absurd hid hc

/-! Behavior of `confirm_payment`. -/

theorem confirm_payment_already (db : DB) (oid : String) (p : Payment)
    (draws : List Nat) (tNow : Nat) (hp : findPayment db oid = some p)
    (hs : p.paymentStatus = "success") :
    confirm_payment db oid draws tNow = .failed .alreadyConfirmed := by
  unfold confirm_payment
  rw [hp]
  dsimp only
  rw [if_pos hs]

theorem confirm_payment_ok_eq (db : DB) (oid : String) (p : Payment)
    (o : Order) (t : String) (draws : List Nat) (tNow : Nat)
    (hp : findPayment db oid = some p) (hns : p.paymentStatus ≠ "success")
    (htx : p.transactionId = none) (ho : findOrder db oid = some o)
    (hcust : customerExists db o.customerId)
    (hgen : generate_transaction_id db draws = some t) :
    confirm_payment db oid draws tNow =
      .ok (appendHistory (replaceOrder
        (replacePayment db
          { p with paymentStatus := "success", transactionId := some t,
                   paymentDate := some tNow, amountPaid := some o.totalAmount })
        { o with status := "shipped" }) oid "shipped") := by
  have hpoid : p.orderId = oid := (findPayment_mem db oid p hp).2
  unfold confirm_payment
  rw [hp]
  dsimp only
  rw [if_neg hns]
  have hsave : dbSavePayment db { p with paymentStatus := "success" } draws tNow =
      some (replacePayment db
        { p with paymentStatus := "success", transactionId := some t,
                 paymentDate := some tNow, amountPaid := some o.totalAmount }) := by
    have hmain := dbSavePayment_success_eq db { p with paymentStatus := "success" }
      draws tNow o t
      (by rw [show ({ p with paymentStatus := "success" } : Payment).orderId = oid from hpoid]; exact ho)
      rfl htx hgen
    simpa using hmain
  rw [hsave]
  dsimp only
  have hord1 : findOrder (replacePayment db
      { p with paymentStatus := "success", transactionId := some t,
               paymentDate := some tNow, amountPaid := some o.totalAmount }) oid = some o := ho
  rw [hord1]
  dsimp only
  exact if_pos hcust

/-! Concrete fixtures used by the witnesses: one customer, one product with
stock 10, one pending order, and a payment in various states. -/

def orderW : Order :=
  { orderId := "1000000", customerId := "alice", totalAmount := 0, status := "pending" }

def productW : Product := { productId := "prod1", stock := 10 }

def paymentPendingW : Payment :=
  { paymentId := 1, orderId := "1000000", paymentMethod := "upi",
    transactionId := none, paymentDate := none, amountPaid := none,
    paymentStatus := "pending" }

def paymentSuccessW : Payment :=
  { paymentId := 1, orderId := "1000000", paymentMethod := "upi",
    transactionId := some "123456789012", paymentDate := some 3,
    amountPaid := some 0, paymentStatus := "success" }

def dbPendingW : DB :=
  { customers := ["alice"], products := [productW], orders := [orderW],
    items := [], payments := [paymentPendingW],
    history := [⟨"1000000", "pending"⟩] }

def dbSuccessW : DB :=
  { customers := ["alice"], products := [productW], orders := [orderW],
    items := [], payments := [paymentSuccessW],
    history := [⟨"1000000", "pending"⟩] }

def dbNoPayW : DB :=
  { customers := ["alice"], products := [productW], orders := [orderW],
    items := [], payments := [], history := [⟨"1000000", "pending"⟩] }

/-! Claim C1. -/

/-- The row stored after saving the previously successful fixture payment
with status `failed`: all three success fields cleared. -/
def paymentFailedClearedW : Payment :=
  { paymentId := 1, orderId := "1000000", paymentMethod := "upi",
    transactionId := none, paymentDate := none, amountPaid := none,
    paymentStatus := "failed" }

/-- C1 counterexample: in models.py lines 158-161, a save of a payment whose
transaction identifier is already assigned, with new status `failed`, clears
the identifier to null — the saved row's `transaction_id` differs from the
previously assigned one, refuting the claim that any subsequent save leaves
it unchanged. -/
theorem payment_save_clears_txid_counterexample :
    paymentSuccessW.transactionId = some "123456789012" ∧
    dbSavePayment dbSuccessW { paymentSuccessW with paymentStatus := "failed" } [] 0 =
      some { dbSuccessW with payments := [paymentFailedClearedW] } ∧
    paymentFailedClearedW.transactionId ≠ paymentSuccessW.transactionId := by
  refine ⟨rfl, rfl, by decide⟩

/-- C1 (amended): once a payment's transaction identifier is assigned, a
subsequent save whose new status is `success` leaves it unchanged, but a
save with status `pending` or `failed` clears it to null (models.py lines
151-162). -/
theorem payment_txid_after_save (p : Payment) (t : String)
    (ht : p.transactionId = some t) (newStatus : String) (total : Int)
    (tNow : Nat) (txGen : Option String) :
    (paymentAfterSave { p with paymentStatus := newStatus } total tNow
        txGen).transactionId =
      if newStatus = "success" then some t else none := by
  unfold paymentAfterSave
  dsimp only
  by_cases hs : newStatus = "success"
  · rw [if_pos hs, if_pos hs]
    dsimp only
    rw [ht]
  · rw [if_neg hs, if_neg hs]

/-- Witness for the amended C1 at a concrete payment and status. -/
theorem payment_txid_after_save_witness :
    paymentSuccessW.transactionId = some "123456789012" ∧
    (paymentAfterSave { paymentSuccessW with paymentStatus := "pending" } 0 0
        none).transactionId =
      if ("pending" : String) = "success" then some "123456789012" else none :=
  ⟨rfl, payment_txid_after_save paymentSuccessW "123456789012" rfl "pending" 0 0 none⟩

/-! Claim C3. -/

/-- C3: when the catalog stock of the referenced product is strictly below
the requested quantity, `addItem` fails with `InsufficientStock`
(models.py lines 98-100); the view's `transaction.atomic` block means the
error result carries no store mutation — no stock change, no item row, no
total change. -/
theorem addItem_insufficient_stock (db : DB) (oid pid : String) (qty : Nat)
    (up : Int) (iid : Nat) (o : Order) (available_stock : Int)
    (ho : findOrder db oid = some o)
    (hs : stockOf db pid = some available_stock)
    (hlt : available_stock < (qty : Int)) :
    addItem db oid pid qty up iid = .error .insufficientStock := by
  unfold addItem
  rw [ho]
  dsimp only
  rw [hs]
  dsimp only
  rw [if_pos hlt]

/-- Witness for C3: one product with stock 10, quantity 11 requested. -/
theorem addItem_insufficient_stock_witness :
    findOrder dbPendingW "1000000" = some orderW ∧
    stockOf dbPendingW "prod1" = some 10 ∧ (10 : Int) < (11 : Nat) ∧
    addItem dbPendingW "1000000" "prod1" 11 5 77 = .error .insufficientStock :=
  ⟨rfl, rfl, by decide,
    addItem_insufficient_stock dbPendingW "1000000" "prod1" 11 5 77 orderW 10
      rfl rfl (by decide)⟩

/-! Claim C4. -/

/-- C4: a transition to `delivered` fails with the domain error
`deliveryRequiresPayment` whenever the order's payment status is not
`success` (and, the checks preceding every mutation, leaves the store
untouched); when the payment status is `success` it succeeds, sets the
order's status to `delivered`, and appends exactly one history row
(views.py lines 89-109). -/
theorem transition_delivered_spec (db : DB) (oid : String) (o : Order)
    (p : Payment) (ho : findOrder db oid = some o)
    (hp : findPayment db oid = some p) :
    (p.paymentStatus ≠ "success" →
      update_status db oid "delivered" = .error .deliveryRequiresPayment) ∧
    (p.paymentStatus = "success" → customerExists db o.customerId →
      ∃ db', update_status db oid "delivered" = .ok db' ∧
        findOrder db' oid = some { o with status := "delivered" } ∧
        db'.history = db.history ++ [⟨oid, "delivered"⟩]) := by
  constructor
  · intro hns
    exact update_status_delivered_no_success db oid o p ho hp hns
  · intro hs hcust
    refine ⟨_, update_status_delivered_success db oid o p ho hp hs hcust, ?_, rfl⟩
    exact findOrder_replaceOrder db oid o { o with status := "delivered" } ho
      ((findOrder_mem db oid o ho).2)

/-- Witness for C4 at a concrete store whose payment is successful. -/
theorem transition_delivered_spec_witness :
    findOrder dbSuccessW "1000000" = some orderW ∧
    findPayment dbSuccessW "1000000" = some paymentSuccessW ∧
    ((paymentSuccessW.paymentStatus ≠ "success" →
      update_status dbSuccessW "1000000" "delivered" = .error .deliveryRequiresPayment) ∧
    (paymentSuccessW.paymentStatus = "success" →
      customerExists dbSuccessW orderW.customerId →
      ∃ db', update_status dbSuccessW "1000000" "delivered" = .ok db' ∧
        findOrder db' "1000000" = some { orderW with status := "delivered" } ∧
        db'.history = dbSuccessW.history ++ [⟨"1000000", "delivered"⟩])) :=
  ⟨rfl, rfl, transition_delivered_spec dbSuccessW "1000000" orderW paymentSuccessW rfl rfl⟩

/-! Claim C10. -/

/-- C10: on an order with no payment row, requesting a transition to
`delivered` fails with the raw ORM exception (`RelatedObjectDoesNotExist`
raised by the `order.payment` access in views.py line 98), which is none of
the spec's domain errors; the access happens before any mutation, so the
order's status and its history are untouched (the error result carries no
store change). -/
theorem transition_delivered_no_payment_spec (db : DB) (oid : String)
    (o : Order) (ho : findOrder db oid = some o)
    (hp : findPayment db oid = none) :
    update_status db oid "delivered" = .error .relatedObjectDoesNotExist ∧
    UpdateStatusError.relatedObjectDoesNotExist ≠ .invalidStatus ∧
    UpdateStatusError.relatedObjectDoesNotExist ≠ .deliveryRequiresPayment ∧
    UpdateStatusError.relatedObjectDoesNotExist ≠ .orderNotFound :=
  ⟨update_status_delivered_no_payment db oid o ho hp, by decide, by decide,
    by decide⟩

/-- Witness for C10 at a concrete store with no payment row. -/
theorem transition_delivered_no_payment_witness :
    findOrder dbNoPayW "1000000" = some orderW ∧
    findPayment dbNoPayW "1000000" = none ∧
    update_status dbNoPayW "1000000" "delivered" = .error .relatedObjectDoesNotExist :=
  ⟨rfl, rfl,
    (transition_delivered_no_payment_spec dbNoPayW "1000000" orderW rfl rfl).1⟩

/-! Claim C2. -/

/-- C2: after every successful item add and every successful item remove,
every order's `total_amount` equals the sum of `total_price` over its live
items — the invariant is preserved from store to store — and an order with
no live items has `total_amount = 0` (models.py lines 41-44, views.py lines
163-172).  `hkeys` is the primary-key uniqueness of the item table. -/
theorem total_amount_matches_items (db db' : DB) (oid pid : String)
    (qty iid iid2 : Nat) (up : Int)
    (hkeys : db.items.Pairwise (fun a b => a.orderItemId ≠ b.orderItemId))
    (hinv : totalsInvariant db)
    (hstep : addItem db oid pid qty up iid = .ok db' ∨
      removeItem db iid2 = .ok db') :
    totalsInvariant db' ∧
      ∀ o ∈ db'.orders,
        db'.items.filter (fun it => it.orderId = o.orderId) = [] →
        o.totalAmount = 0 := by
  have hmain : totalsInvariant db' := by
    rcases hstep with h | h
    · rcases addItem_ok_elim db oid pid qty up iid db' h with
        ⟨o, st, ho, _, _, _, rfl⟩
      exact totalsInvariant_addItemSuccess db o oid pid qty up iid ho hinv
    · rcases removeItem_ok_elim db iid2 db' h with ⟨it, o, hit, ho, _, rfl⟩
      exact totalsInvariant_removeItemSuccess db o iid2 it hit ho hkeys hinv
  refine ⟨hmain, ?_⟩
  intro o ho hempty
  rw [hmain o ho]
  unfold itemsTotal
  rw [hempty]
  rfl

/-- Witness for C2: adding one item of quantity 3 at unit price 5 to the
fixture store. -/
theorem total_amount_matches_items_witness :
    dbPendingW.items.Pairwise (fun a b => a.orderItemId ≠ b.orderItemId) ∧
    totalsInvariant dbPendingW ∧
    (addItem dbPendingW "1000000" "prod1" 3 5 77 =
      .ok (addItemSuccess dbPendingW orderW "1000000" "prod1" 3 5 77) ∨
      removeItem dbPendingW 77 =
        .ok (addItemSuccess dbPendingW orderW "1000000" "prod1" 3 5 77)) ∧
    (totalsInvariant (addItemSuccess dbPendingW orderW "1000000" "prod1" 3 5 77) ∧
      ∀ o ∈ (addItemSuccess dbPendingW orderW "1000000" "prod1" 3 5 77).orders,
        (addItemSuccess dbPendingW orderW "1000000" "prod1" 3 5 77).items.filter
          (fun it => it.orderId = o.orderId) = [] →
        o.totalAmount = 0) :=
  ⟨by decide, by decide, Or.inl rfl,
    total_amount_matches_items dbPendingW
      (addItemSuccess dbPendingW orderW "1000000" "prod1" 3 5 77)
      "1000000" "prod1" 3 77 0 5 (by decide) (by decide) (Or.inl rfl)⟩

/-! Claim C6. -/

/-- C6: a successful `addItem` (product exists, stock at least the
quantity, valid order and customer) decrements the catalog stock by exactly
the requested quantity, persists exactly one new item row whose
`total_price` is `unit_price * quantity`, and re-persists the parent order
with `total_amount` recomputed from the live items (models.py lines
88-112). -/
theorem addItem_success_spec (db : DB) (oid pid : String) (qty : Nat)
    (up : Int) (iid : Nat) (o : Order) (available_stock : Int)
    (ho : findOrder db oid = some o)
    (hs : stockOf db pid = some available_stock)
    (hge : ¬ available_stock < (qty : Int))
    (hcust : customerExists db o.customerId) :
    ∃ db', addItem db oid pid qty up iid = .ok db' ∧
      stockOf db' pid = some (available_stock - (qty : Int)) ∧
      db'.items = db.items ++ [newOrderItem oid pid qty up iid] ∧
      (newOrderItem oid pid qty up iid).totalPrice = up * (qty : Int) ∧
      findOrder db' oid = some { o with totalAmount := itemsTotal db' oid } := by
  refine ⟨addItemSuccess db o oid pid qty up iid, ?_, ?_, rfl, rfl, ?_⟩
  · unfold addItem
    rw [ho]
    dsimp only
    rw [hs]
    dsimp only
    rw [if_neg hge, if_pos hcust]
  · exact stockOf_decStock _ pid qty available_stock hs
  · have h1 : findOrder
        { db with items := db.items ++ [newOrderItem oid pid qty up iid] } oid =
        some o := ho
    exact findOrder_replaceOrder _ oid o _ h1 ((findOrder_mem db oid o ho).2)

/-- Witness for C6: stock 10, quantity 3 at unit price 5. -/
theorem addItem_success_spec_witness :
    findOrder dbPendingW "1000000" = some orderW ∧
    stockOf dbPendingW "prod1" = some 10 ∧
    ¬ (10 : Int) < ((3 : Nat) : Int) ∧
    customerExists dbPendingW orderW.customerId ∧
    (∃ db', addItem dbPendingW "1000000" "prod1" 3 5 77 = .ok db' ∧
      stockOf db' "prod1" = some ((10 : Int) - ((3 : Nat) : Int)) ∧
      db'.items = dbPendingW.items ++ [newOrderItem "1000000" "prod1" 3 5 77] ∧
      (newOrderItem "1000000" "prod1" 3 5 77).totalPrice = 5 * ((3 : Nat) : Int) ∧
      findOrder db' "1000000" =
        some { orderW with totalAmount := itemsTotal db' "1000000" }) :=
  ⟨rfl, rfl, by decide, by decide,
    addItem_success_spec dbPendingW "1000000" "prod1" 3 5 77 orderW 10
      rfl rfl (by decide) (by decide)⟩

/-! Claim C8. -/

/-- C8: deleting an existing order item removes the row, re-persists the
parent order with `total_amount` recomputed from the remaining live items,
and leaves the catalog product table — in particular the item's product's
stock — completely unchanged (views.py lines 163-172; no stock restore). -/
theorem removeItem_spec (db : DB) (iid : Nat) (it : OrderItem) (o : Order)
    (hit : findItem db iid = some it)
    (ho : findOrder db it.orderId = some o)
    (hcust : customerExists db o.customerId) :
    ∃ db', removeItem db iid = .ok db' ∧
      db'.products = db.products ∧
      (∀ j ∈ db'.items, j.orderItemId ≠ iid) ∧
      findOrder db' it.orderId =
        some { o with totalAmount := itemsTotal db' it.orderId } := by
  refine ⟨removeItemSuccess db o iid it.orderId, ?_, rfl, ?_, ?_⟩
  · unfold removeItem
    rw [hit]
    dsimp only
    rw [ho]
    dsimp only
    rw [if_pos hcust]
  · intro j hj
    have hj2 : j ∈ db.items.filter (fun j => j.orderItemId ≠ iid) := hj
    have hmem := List.of_mem_filter hj2
    simpa using hmem
  · have h1 : findOrder
        { db with items := db.items.filter (fun j => j.orderItemId ≠ iid) }
        it.orderId = some o := ho
    exact findOrder_replaceOrder _ it.orderId o _ h1
      ((findOrder_mem db it.orderId o ho).2)

/-- Fixture store with one live order item (quantity 3 at unit price 5) and
the order total already recomputed to 15; product stock stands at 7 after
the earlier decrement. -/
def itemW : OrderItem :=
  { orderItemId := 77, orderId := "1000000", productId := "prod1",
    quantity := 3, unitPrice := 5, totalPrice := 15 }

def dbItemW : DB :=
  { customers := ["alice"], products := [{ productId := "prod1", stock := 7 }],
    orders := [{ orderW with totalAmount := 15 }], items := [itemW],
    payments := [], history := [⟨"1000000", "pending"⟩] }

/-- Witness for C8 at the one-item fixture store. -/
theorem removeItem_spec_witness :
    findItem dbItemW 77 = some itemW ∧
    findOrder dbItemW itemW.orderId = some ({ orderW with totalAmount := 15 }) ∧
    customerExists dbItemW ({ orderW with totalAmount := 15 } : Order).customerId ∧
    (∃ db', removeItem dbItemW 77 = .ok db' ∧
      db'.products = dbItemW.products ∧
      (∀ j ∈ db'.items, j.orderItemId ≠ 77) ∧
      findOrder db' itemW.orderId =
        some { ({ orderW with totalAmount := 15 } : Order) with
               totalAmount := itemsTotal db' itemW.orderId }) :=
  ⟨rfl, rfl, by decide,
    removeItem_spec dbItemW 77 itemW ({ orderW with totalAmount := 15 }) rfl rfl
      (by decide)⟩

/-! Claim C7. -/

/-- C7: saving a payment with status `success` snapshots the parent order's
`total_amount` of that moment into `amount_paid` (models.py line 157), and
subsequent item adds or removes never touch the payment table, so the
snapshot is not recomputed (models.py lines 88-112, views.py lines
163-172). -/
theorem amount_paid_snapshot_spec (db : DB) (p : Payment) (o : Order)
    (draws : List Nat) (tNow : Nat) (db1 : DB)
    (ho : findOrder db p.orderId = some o)
    (hs : p.paymentStatus = "success")
    (hsv : dbSavePayment db p draws tNow = some db1) :
    (∀ q ∈ db1.payments, q.paymentId = p.paymentId →
      q.amountPaid = some o.totalAmount) ∧
    (∀ oid2 pid qty up iid db2, addItem db1 oid2 pid qty up iid = .ok db2 →
      db2.payments = db1.payments) ∧
    (∀ iid db2, removeItem db1 iid = .ok db2 → db2.payments = db1.payments) := by
  refine ⟨?_, ?_, ?_⟩
  · rcases dbSavePayment_success_elim db p draws tNow db1 hs hsv with
      ⟨o2, tx, ho2, rfl⟩
    have ho2e : o2 = o := by
      rw [ho] at ho2
      exact (Option.some.inj ho2.symm)
    intro q hq hid
    have hq2 := mem_replacePayment_eq db _ q hq hid
    rw [hq2, ho2e]
  · intro oid2 pid qty up iid db2 h2
    rcases addItem_ok_elim db1 oid2 pid qty up iid db2 h2 with
      ⟨o3, st3, _, _, _, _, rfl⟩
    rfl
  · intro iid db2 h2
    rcases removeItem_ok_elim db1 iid db2 h2 with ⟨it3, o3, _, _, _, rfl⟩
    rfl

/-- The payment row after re-saving the fixture success payment at time 9:
the transaction id is kept, the snapshot fields are restamped. -/
def paymentSnapW : Payment :=
  { paymentId := 1, orderId := "1000000", paymentMethod := "upi",
    transactionId := some "123456789012", paymentDate := some 9,
    amountPaid := some 0, paymentStatus := "success" }

def dbSnapW : DB :=
  { customers := ["alice"], products := [productW], orders := [orderW],
    items := [], payments := [paymentSnapW],
    history := [⟨"1000000", "pending"⟩] }

/-- Witness for C7 at the fixture store with a successful payment. -/
theorem amount_paid_snapshot_spec_witness :
    findOrder dbSuccessW paymentSuccessW.orderId = some orderW ∧
    paymentSuccessW.paymentStatus = "success" ∧
    dbSavePayment dbSuccessW paymentSuccessW [] 9 = some dbSnapW ∧
    ((∀ q ∈ dbSnapW.payments, q.paymentId = paymentSuccessW.paymentId →
      q.amountPaid = some orderW.totalAmount) ∧
    (∀ oid2 pid qty up iid db2, addItem dbSnapW oid2 pid qty up iid = .ok db2 →
      db2.payments = dbSnapW.payments) ∧
    (∀ iid db2, removeItem dbSnapW iid = .ok db2 →
      db2.payments = dbSnapW.payments)) :=
  ⟨rfl, rfl, rfl,
    amount_paid_snapshot_spec dbSuccessW paymentSuccessW orderW [] 9 dbSnapW
      rfl rfl rfl⟩

/-! Claim C5. -/

/-- C5: `confirm_payment` rejects an already-successful payment with
"already marked as successful"; otherwise it sets the payment status to
`success` — assigning a fresh 12-digit transaction identifier (str of a
uuid4 integer truncated to 12 characters; every `uuid.uuid4().int` is at
least `2 ^ 78 > 10 ^ 11` because the version nibble is fixed at 4, whence
the draw bound below) and snapshotting `amount_paid` — sets the parent
order's status to `shipped`, and appends exactly one `shipped` history row
(views.py lines 217-233, models.py lines 144-162). -/
theorem confirm_payment_spec (db : DB) (oid : String) (p : Payment)
    (draws : List Nat) (tNow : Nat)
    (hp : findPayment db oid = some p) :
    (p.paymentStatus = "success" →
      confirm_payment db oid draws tNow = .failed .alreadyConfirmed) ∧
    (p.paymentStatus ≠ "success" → p.transactionId = none →
      (∀ d ∈ draws, 10 ^ 11 ≤ d) →
      ∀ o, findOrder db oid = some o → customerExists db o.customerId →
      ∀ t, generate_transaction_id db draws = some t →
      ∃ db2, confirm_payment db oid draws tNow = .ok db2 ∧
        findPayment db2 oid = some
          { p with paymentStatus := "success", transactionId := some t,
                   paymentDate := some tNow, amountPaid := some o.totalAmount } ∧
        isNDigitString 12 t ∧
        findOrder db2 oid = some { o with status := "shipped" } ∧
        db2.history = db.history ++ [⟨oid, "shipped"⟩]) := by
  constructor
  · intro hs
    exact confirm_payment_already db oid p draws tNow hp hs
  · intro hns htx hdraws o ho hcust t hgen
    refine ⟨_, confirm_payment_ok_eq db oid p o t draws tNow hp hns htx ho hcust hgen,
      ?_, ?_, ?_, rfl⟩
    · exact findPayment_replacePayment db oid p _ hp rfl ((findPayment_mem db oid p hp).2)
    · rcases generate_transaction_id_spec db draws t hgen with ⟨⟨d, hd, rfl⟩, _⟩
      exact txString_isTwelveDigit d (hdraws d hd)
    · exact findOrder_replaceOrder _ oid o _ ho ((findOrder_mem db oid o ho).2)

/-- Witness for C5 at the fixture store with a pending payment and one
uuid draw. -/
theorem confirm_payment_spec_witness :
    findPayment dbPendingW "1000000" = some paymentPendingW ∧
    ((paymentPendingW.paymentStatus = "success" →
      confirm_payment dbPendingW "1000000" [100000000000] 7 = .failed .alreadyConfirmed) ∧
    (paymentPendingW.paymentStatus ≠ "success" → paymentPendingW.transactionId = none →
      (∀ d ∈ [100000000000], 10 ^ 11 ≤ d) →
      ∀ o, findOrder dbPendingW "1000000" = some o →
        customerExists dbPendingW o.customerId →
      ∀ t, generate_transaction_id dbPendingW [100000000000] = some t →
      ∃ db2, confirm_payment dbPendingW "1000000" [100000000000] 7 = .ok db2 ∧
        findPayment db2 "1000000" = some
          { paymentPendingW with
              paymentStatus := "success", transactionId := some t,
              paymentDate := some 7, amountPaid := some o.totalAmount } ∧
        isNDigitString 12 t ∧
        findOrder db2 "1000000" = some { o with status := "shipped" } ∧
        db2.history = dbPendingW.history ++ [⟨"1000000", "shipped"⟩])) :=
  ⟨rfl, confirm_payment_spec dbPendingW "1000000" paymentPendingW
    [100000000000] 7 rfl⟩

/-! Claim C9. -/

/-- C9: every order identifier the generator returns for a draw stream from
`random.randint(1000000, 9999999)` is a 7-digit numeric string that differs
from every `order_id` already in the store at generation time (models.py
lines 9-14). -/
theorem generate_order_id_valid (db : DB) (draws : List Nat) (s : String)
    (hrange : ∀ d ∈ draws, 1000000 ≤ d ∧ d ≤ 9999999)
    (h : generate_order_id db draws = some s) :
    isNDigitString 7 s ∧ ∀ o ∈ db.orders, o.orderId ≠ s := by
  rcases generate_order_id_spec db draws s h with ⟨⟨d, hd, rfl⟩, hfresh⟩
  refine ⟨?_, hfresh⟩
  rcases hrange d hd with ⟨hlo, hhi⟩
  have hdig := natStr_isNDigit 6 d (by norm_num; omega) (by norm_num; omega)
  exact hdig

/-- Witness for C9: the first draw collides with the existing order id, the
second is returned. -/
theorem generate_order_id_valid_witness :
    (∀ d ∈ [1000000, 2000000], 1000000 ≤ d ∧ d ≤ 9999999) ∧
    generate_order_id dbPendingW [1000000, 2000000] = some "2000000" ∧
    (isNDigitString 7 "2000000" ∧
      ∀ o ∈ dbPendingW.orders, o.orderId ≠ "2000000") :=
  ⟨by decide, by decide,
    generate_order_id_valid dbPendingW [1000000, 2000000] "2000000"
      (by decide) (by decide)⟩

end OrderService
